import Mathlib

/-!
Verification of the `/chat` endpoint of the banking natural-language query
service (`src/python_service/main.py`).

The Python code is shallowly embedded: Python `str` values become `List Char`,
the external collaborators (the Gemini model client, `json.loads`/`json.dumps`,
and the MongoDB document store) become function-valued fields of an `Env`
record, and the endpoint becomes a total Lean function that also returns a
trace of the model calls and database calls it made.  Python exceptions inside
the endpoint's `try` block are modelled by `Except`-style results that the
outermost handler converts into the generic "An error occurred" response.
-/

namespace BankingChat

/-- Python `str` values are embedded as lists of characters. -/
abbrev Str := List Char

/-- Convenience conversion from Lean string literals to the embedding. -/
def toChars (s : String) : Str := s.toList

/-- The backtick character (used by the markdown code-fence markers). -/
def btick : Char := Char.ofNat 96

/-- The dollar character (used by aggregation field references). -/
def dollarChar : Char := Char.ofNat 36

/-- Whitespace test used by Python `str.strip()`. -/
def isSpace (c : Char) : Bool := c.isWhitespace

/-- Python `str.strip()`: drop whitespace from both ends. -/
def pyStrip (s : Str) : Str :=
  ((s.dropWhile isSpace).reverse.dropWhile isSpace).reverse

/-- Python `str.lower()` (ASCII case folding suffices for the error texts). -/
def pyLower (s : Str) : Str := s.map Char.toLower

/-- Python `needle in haystack` substring test. -/
def containsSub (p : Str) : Str → Bool
  | [] => p == []
  | c :: rest => p.isPrefixOf (c :: rest) || containsSub p rest

/-- JSON / BSON values as exchanged between the model, the endpoint and the
document store.  Numbers are restricted to integers, which covers every value
the claims mention. -/
inductive Json where
  | vNull
  | vBool (b : Bool)
  | vInt (n : Int)
  | vStr (s : Str)
  | vArr (elems : List Json)
  | vObj (fields : List (Str × Json))

/-- A document returned by the store: a mapping from field names to values. -/
abbrev Doc := List (Str × Json)

/-- Python `repr` of a string: the text between single quotes. -/
def quoteStr (s : Str) : Str := [Char.ofNat 39] ++ s ++ [Char.ofNat 39]

mutual

/-- Python `repr` of the values occurring in documents (`repr` and `str`
coincide on everything except strings). -/
def pyRepr : Json → Str
  | .vNull => toChars "None"
  | .vBool true => toChars "True"
  | .vBool false => toChars "False"
  | .vInt n => toChars (toString n)
  | .vStr s => quoteStr s
  | .vArr xs => toChars "[" ++ pyReprElems xs ++ toChars "]"
  | .vObj fs => toChars "\x7b" ++ pyReprFields fs ++ toChars "\x7d"

/-- `repr` of a list's elements, comma separated. -/
def pyReprElems : List Json → Str
  | [] => []
  | [x] => pyRepr x
  | x :: y :: xs => pyRepr x ++ toChars ", " ++ pyReprElems (y :: xs)

/-- `repr` of a dict's entries, comma separated. -/
def pyReprFields : List (Str × Json) → Str
  | [] => []
  | [(k, v)] => quoteStr k ++ toChars ": " ++ pyRepr v
  | (k, v) :: kv2 :: kvs =>
    quoteStr k ++ toChars ": " ++ pyRepr v ++ toChars ", "
      ++ pyReprFields (kv2 :: kvs)

end

/-- Python `str(value)`: the display-string form of a value
(`str` on dates, identifiers and numbers; identity on strings). -/
def pyStr : Json → Str
  | .vStr s => s
  | v => pyRepr v

/-- Python truthiness of a JSON value (`if not collection_name or not
pipeline`). -/
def pyTruthy : Json → Bool
  | .vNull => false
  | .vBool b => b
  | .vInt n => n != 0
  | .vStr s => !s.isEmpty
  | .vArr xs => !xs.isEmpty
  | .vObj fs => !fs.isEmpty

/-- Truthiness of `dict.get`'s result (`None` when the key is absent). -/
def pyTruthyOpt : Option Json → Bool
  | none => false
  | some v => pyTruthy v

/-- Result of one `generate_content` call on the model client: the generated
text, or the `str(...)` text of the raised exception. -/
inductive GenResult where
  | ok (text : Str)
  | error (errStr : Str)

/-- The `GenerateContentConfig` passed to the model client. -/
structure GenConfig where
  system_instruction : Option Str
  temperature : ℚ

/-- The config used by the dispatch loop: the static system prompt at
temperature 0.7 (`main.py` lines 441-444). -/
def dispatchConfig (sysPrompt : Str) : GenConfig :=
  { system_instruction := some sysPrompt, temperature := (7 : ℚ)/10 }

/-- The config used by the summarization call: no system instruction,
temperature 0.3 (`main.py` line 525). -/
def summaryConfig : GenConfig :=
  { system_instruction := none, temperature := (3 : ℚ)/10 }

/-- The external world as visible from the endpoint: readiness flags and the
behaviour of the model client, the JSON (de)serializer and the document store.
`aggregate` models `db[collection_name].aggregate(pipeline)` (including
`db[...]` lookup failures), returning either the raised exception's text or
the result documents. -/
structure Env where
  dbConfigured : Bool
  geminiReady : Bool
  generate : Str → Str → GenConfig → GenResult
  aggregate : Json → Json → Except Str (List Doc)
  json_loads : Str → Option Json
  json_dumps : Json → Str
  systemPrompt : Str

/-- The ordered candidate model list (`main.py` lines 372-379). -/
def models_to_try : List Str :=
  [toChars "gemini-1.5-flash",
   toChars "gemini-1.5-flash-8b",
   toChars "gemini-2.0-flash",
   toChars "gemini-2.0-flash-lite",
   toChars "gemini-2.0-flash-exp",
   toChars "gemini-1.5-pro"]

/-- Error classification of the fallback loop (`main.py` lines 454-462):
quota exhaustion (429 / RESOURCE_EXHAUSTED / "quota" case-insensitively),
model not found (404 / NOT_FOUND) and invalid argument (400 /
INVALID_ARGUMENT) all lead to `continue`. -/
def isRetryableErr (e : Str) : Bool :=
  containsSub (toChars "429") e
    || containsSub (toChars "RESOURCE_EXHAUSTED") e
    || containsSub (toChars "quota") (pyLower e)
    || containsSub (toChars "404") e
    || containsSub (toChars "NOT_FOUND") e
    || containsSub (toChars "400") e
    || containsSub (toChars "INVALID_ARGUMENT") e

/-- Outcome of the model dispatch loop. -/
inductive LoopResult where
  | success (text : Str) (model : Str)
  | exhausted
  | raised (errStr : Str)

/-- The fallback loop (`main.py` lines 435-464): try each model in order;
on success keep the stripped text and the model name and stop; on a
retryable error continue with the next model; on any other error re-raise.
Also returns the list of models actually invoked, in order. -/
def dispatch (gen : Str → GenResult) : List Str → LoopResult × List Str
  | [] => (.exhausted, [])
  | m :: rest =>
    match gen m with
    | .ok t => (.success (pyStrip t) m, [m])
    | .error e =>
      if isRetryableErr e then
        let r := dispatch gen rest
        (r.1, m :: r.2)
      else
        (.raised e, [m])

/-- Markdown code-fence cleanup (`main.py` lines 472-477): drop a leading
"```json", then a leading "```", then a trailing "```". -/
def stripCodeFences (s0 : Str) : Str :=
  let s1 := if (toChars "```json").isPrefixOf s0 then s0.drop 7 else s0
  let s2 := if (toChars "```").isPrefixOf s1 then s1.drop 3 else s1
  if (toChars "```").isSuffixOf s2 then s2.take (s2.length - 3) else s2

/-- Fence cleanup followed by the final `strip()` (`main.py` line 479). -/
def cleanContent (s : Str) : Str := pyStrip (stripCodeFences s)

/-- Full text processing applied to the raw model output before JSON parsing:
`response.text.strip()` in the loop, then fence cleanup, then `strip()`. -/
def processModelText (t : Str) : Str := cleanContent (pyStrip t)

/-- Advisory when no database connection is configured (`main.py` 420-422). -/
def noDbMsg : Str :=
  toChars "The AI Banking Assistant is not connected to the database. Please check your DATABASE_URL environment variable."

/-- Advisory when the model client is not initialized (`main.py` 424-427). -/
def noKeyMsg : Str :=
  toChars "The AI Banking Assistant is not correctly initialized. Please check your GEMINI_API_KEY."

/-- Advisory when every candidate model failed retryably (`main.py` 466-469). -/
def quotaMsg : Str :=
  toChars "All Gemini models have exceeded their quota. Please try again later or check your API key quota at https://ai.dev/rate-limit."

/-- Advisory when the directive lacks a truthy collection or pipeline
(`main.py` 490-491). -/
def cantQueryMsg : Str :=
  toChars "Sorry, I couldn\x27t understand how to query the database for that."

/-- Advisory when the model output fails to parse as JSON (`main.py` 531-532). -/
def parseFailMsg (raw : Str) : Str :=
  toChars "AI Error: Failed to parse response. Raw: " ++ raw

/-- The outermost exception handler's response (`main.py` 534-536). -/
def errorMsg (e : Str) : Str := toChars "An error occurred: " ++ e

/-- Advisory for an empty result set (`main.py` 508-512). -/
def noResultsMsg (coll : Str) : Str :=
  toChars "No results found for your query in the " ++ coll
    ++ toChars " collection."

/-- `str(KeyError("message"))` raised by `parsed_content["message"]` when the
field is absent (`main.py` line 485). -/
def keyErrMsg : Str := toChars "\x27message\x27"

/-- The Python type name of an embedded JSON value. -/
def pyTypeName : Json → Str
  | .vNull => toChars "NoneType"
  | .vBool _ => toChars "bool"
  | .vInt _ => toChars "int"
  | .vStr _ => toChars "str"
  | .vArr _ => toChars "list"
  | .vObj _ => toChars "dict"

/-- `str(AttributeError(...))` raised by `parsed_content.get(...)` when the
parsed JSON is not an object (`main.py` line 487). -/
def attrErrMsg (v : Json) : Str :=
  toChars "\x27" ++ pyTypeName v
    ++ toChars "\x27 object has no attribute \x27get\x27"

/-- Text of the pydantic validation failure raised by
`ChatResponse(response=...)` when the message value is not a string.  The
exact wording is pydantic's (an external library) and is abridged here. -/
def pydanticErrMsg : Str :=
  toChars "1 validation error for ChatResponse"

/-- The response body of `POST /chat`: `{response: string, data: Any = None}`. -/
structure ChatResponse where
  response : Str
  data : Option Json

/-- One `generate_content` invocation as recorded in the trace. -/
structure ModelCall where
  model : Str
  contents : Str
  config : GenConfig

/-- The external calls performed while serving one request:
model invocations (in order) and `aggregate` calls (collection, pipeline). -/
structure Trace where
  modelCalls : List ModelCall
  dbCalls : List (Json × Json)

/-- Result of one request: the HTTP-200 response body plus the trace. -/
structure Outcome where
  resp : ChatResponse
  trace : Trace

/-- The generate function the dispatch loop uses: the user message as contents
with the static system prompt at temperature 0.7. -/
def chatGen (env : Env) (msg : Str) (m : Str) : GenResult :=
  env.generate m msg (dispatchConfig env.systemPrompt)

/-- The trace entries for the dispatch loop's invocations. -/
def tracedCalls (env : Env) (msg : Str) (ms : List Str) : List ModelCall :=
  ms.map (fun m => ⟨m, msg, dispatchConfig env.systemPrompt⟩)

/-- Value-to-display-string conversion applied to each result document
(`main.py` lines 502-505; `hasattr(value, '__str__')` is true of every
Python value, so every value is converted). -/
def stringifyDoc (d : Doc) : Doc :=
  d.map (fun kv => (kv.1, Json.vStr (pyStr kv.2)))

/-- The JSON form of a result list, as handed to `json.dumps` and to the
`data` field of the response. -/
def docsToJson (rs : List Doc) : Json := .vArr (rs.map .vObj)

/-- The summarization prompt (`main.py` lines 515-520): an f-string holding
the user question, the dump of the first 10 result records and the total
result count. -/
def summaryPrompt (msg : Str) (resultsDump : Str) (total : Nat) : Str :=
  toChars "\n            User Question: \"" ++ msg
    ++ toChars "\"\n            Database Results: " ++ resultsDump
    ++ toChars " (showing first 10 items out of " ++ toChars (toString total)
    ++ toChars " total)\n            \n            Provide a clear, natural language summary. Include numbers and format currencies properly.\n            "

/-- `parsed_content.get("type") == "conversation"` (`main.py` line 484); a
Python `==` against the string literal is only true for an equal string. -/
def isConversationTag : Option Json → Bool
  | some (.vStr s) => s == toChars "conversation"
  | _ => false

/-- The summarization prompt built from the (string-converted) results
(`main.py` lines 515-520): `json.dumps(results[:10], default=str)` and
`len(results)` interpolated into the f-string. -/
def execPrompt (env : Env) (msg : Str) (results : List Doc) : Str :=
  summaryPrompt msg (env.json_dumps (docsToJson (results.take 10)))
    results.length

/-- Query execution and summarization (`main.py` lines 497-529), reached with
truthy `collection_name` (`cn`) and `pipeline` (`pl`).  An `error` from the
store or the summarizer propagates to the outermost handler. -/
def execQuery (env : Env) (msg model : Str) (cn pl : Json)
    (dcs : List ModelCall) : Outcome :=
  match env.aggregate cn pl with
  | .error e => ⟨⟨errorMsg e, none⟩, ⟨dcs, [(cn, pl)]⟩⟩
  | .ok rawResults =>
    if (rawResults.map stringifyDoc).length = 0 then
      ⟨⟨noResultsMsg (pyStr cn), some (.vObj [(toChars "query", pl)])⟩,
        ⟨dcs, [(cn, pl)]⟩⟩
    else
      match env.generate model
          (execPrompt env msg (rawResults.map stringifyDoc)) summaryConfig with
      | .error e =>
        ⟨⟨errorMsg e, none⟩,
          ⟨dcs ++ [⟨model, execPrompt env msg (rawResults.map stringifyDoc),
            summaryConfig⟩], [(cn, pl)]⟩⟩
      | .ok t =>
        ⟨⟨pyStrip t, some (docsToJson (rawResults.map stringifyDoc))⟩,
          ⟨dcs ++ [⟨model, execPrompt env msg (rawResults.map stringifyDoc),
            summaryConfig⟩], [(cn, pl)]⟩⟩

/-- Directive validation (`main.py` lines 487-491): extract `collection` and
`pipeline`; if either is absent or falsy, answer with the advisory. -/
def runDirective (env : Env) (msg model : Str) (fields : List (Str × Json))
    (dcs : List ModelCall) : Outcome :=
  match List.lookup (toChars "collection") fields,
      List.lookup (toChars "pipeline") fields with
  | some cn, some pl =>
    if pyTruthy cn && pyTruthy pl then execQuery env msg model cn pl dcs
    else ⟨⟨cantQueryMsg, none⟩, ⟨dcs, []⟩⟩
  | _, _ => ⟨⟨cantQueryMsg, none⟩, ⟨dcs, []⟩⟩

/-- Interpretation of the parsed model output (`main.py` lines 483-491):
a dict tagged `type == "conversation"` answers with its `message` field
(a missing field raises `KeyError`, a non-string raises pydantic's
validation error); a non-dict raises `AttributeError` at `.get`; anything
else is treated as a query directive. -/
def interpretParsed (env : Env) (msg model : Str) (parsed : Json)
    (dcs : List ModelCall) : Outcome :=
  match parsed with
  | .vObj fields =>
    if isConversationTag (List.lookup (toChars "type") fields) then
      match List.lookup (toChars "message") fields with
      | some (.vStr m) => ⟨⟨m, none⟩, ⟨dcs, []⟩⟩
      | some _ => ⟨⟨errorMsg pydanticErrMsg, none⟩, ⟨dcs, []⟩⟩
      | none => ⟨⟨errorMsg keyErrMsg, none⟩, ⟨dcs, []⟩⟩
    else runDirective env msg model fields dcs
  | _ => ⟨⟨errorMsg (attrErrMsg parsed), none⟩, ⟨dcs, []⟩⟩

/-- Fence cleanup and JSON parsing of the dispatch loop's output
(`main.py` lines 471-483, 531-532): a `json.loads` failure is answered with
the parse advisory carrying the cleaned text. -/
def afterDispatch (env : Env) (msg model : Str) (aiStripped : Str)
    (dcs : List ModelCall) : Outcome :=
  match env.json_loads (cleanContent aiStripped) with
  | none => ⟨⟨parseFailMsg (cleanContent aiStripped), none⟩, ⟨dcs, []⟩⟩
  | some parsed => interpretParsed env msg model parsed dcs

/-- `POST /chat` (`main.py` lines 411-536): configuration checks, the model
dispatch loop, then interpretation/execution; every exception raised inside
the `try` block is converted by the outermost handler into the generic
"An error occurred" 200-response. -/
def chat_endpoint (env : Env) (msg : Str) : Outcome :=
  if env.dbConfigured = false then
    ⟨⟨noDbMsg, none⟩, ⟨[], []⟩⟩
  else if env.geminiReady = false then
    ⟨⟨noKeyMsg, none⟩, ⟨[], []⟩⟩
  else
    match dispatch (chatGen env msg) models_to_try with
    | (.raised e, calls) =>
      ⟨⟨errorMsg e, none⟩, ⟨tracedCalls env msg calls, []⟩⟩
    | (.exhausted, calls) =>
      ⟨⟨quotaMsg, none⟩, ⟨tracedCalls env msg calls, []⟩⟩
    | (.success t model, calls) =>
      afterDispatch env msg model t (tracedCalls env msg calls)

/-- A concrete environment used to instantiate theorems: database and model
client configured, every external call failing or empty unless overridden. -/
def baseEnv : Env where
  dbConfigured := true
  geminiReady := true
  generate := fun _ _ _ => .error (toChars "boom")
  aggregate := fun _ _ => .error (toChars "database unavailable")
  json_loads := fun _ => none
  json_dumps := fun _ => toChars "[]"
  systemPrompt := toChars "SYSTEM_PROMPT"

/-- Environment with no database configured. -/
def envNoDb : Env := { baseEnv with dbConfigured := false }

/-- A model client whose first candidate fails with a quota signal, whose
second succeeds, and whose remaining candidates must never be reached. -/
def c2gen : Str → GenResult := fun m =>
  if m == toChars "modelA" then .error (toChars "429 RESOURCE_EXHAUSTED: quota")
  else if m == toChars "modelB" then .ok (toChars "some output")
  else .error (toChars "should not be called")

/-- Environment in which every model invocation fails with a quota signal. -/
def env3 : Env :=
  { baseEnv with generate := fun _ _ _ => .error (toChars "429 quota exceeded") }

/-- A conversational model reply and its parsed form. -/
def conv5Text : Str :=
  toChars "\x7b\"type\": \"conversation\", \"message\": \"Hi\"\x7d"

/-- The parsed conversational reply. -/
def conv5Json : Json :=
  .vObj [(toChars "type", .vStr (toChars "conversation")),
         (toChars "message", .vStr (toChars "Hi"))]

/-- Environment whose model returns the conversational reply. -/
def env5 : Env :=
  { baseEnv with
    generate := fun _ _ _ => .ok conv5Text
    json_loads := fun s => if s == conv5Text then some conv5Json else none }

/-- A directive that parses but lacks a `pipeline` field. -/
def dir6Text : Str := toChars "\x7b\"collection\": \"accounts\"\x7d"

/-- The parsed pipeline-less directive. -/
def dir6Json : Json := .vObj [(toChars "collection", .vStr (toChars "accounts"))]

/-- Environment whose model returns the pipeline-less directive. -/
def env6c : Env :=
  { baseEnv with
    generate := fun _ _ _ => .ok dir6Text
    json_loads := fun s => if s == dir6Text then some dir6Json else none }

/-- Environment whose model returns text that is not valid JSON. -/
def env6w : Env :=
  { baseEnv with generate := fun _ _ _ => .ok (toChars "not json") }

/-- A valid directive over the loans collection. -/
def pipe7 : Json :=
  .vArr [.vObj [(toChars "$match",
    .vObj [(toChars "status", .vStr (toChars "open"))])]]

/-- The raw model text of the loans directive. -/
def dir7Text : Str :=
  toChars "\x7b\"collection\": \"loans\", \"pipeline\": [\x7b\"$match\": \x7b\"status\": \"open\"\x7d\x7d]\x7d"

/-- The parsed loans directive. -/
def dir7Json : Json :=
  .vObj [(toChars "collection", .vStr (toChars "loans")),
         (toChars "pipeline", pipe7)]

/-- Environment in which the loans directive matches zero records. -/
def env7 : Env :=
  { baseEnv with
    generate := fun _ _ _ => .ok dir7Text
    json_loads := fun s => if s == dir7Text then some dir7Json else none
    aggregate := fun _ _ => .ok [] }

/-- Modelled from the spec: the external document store's aggregation
semantics for a single-stage `$group` pipeline with `_id: null` and one
`$sum: "$field"` accumulator (spec 4.3 and its worked example).  The store
itself is an external collaborator and has no code under `src/`; the
endpoint passes the pipeline to it verbatim. -/
def mongoGroupSum (docs : List Doc) (pl : Json) : Except Str (List Doc) :=
  match pl with
  | .vArr [.vObj [(gkey, .vObj
      [(idKey, .vNull), (outField, .vObj [(sumKey, .vStr fieldRef)])])]] =>
    if gkey == toChars "$group" && idKey == toChars "_id"
        && sumKey == toChars "$sum" then
      match fieldRef with
      | d :: fname =>
        if d == dollarChar then
          .ok [[(toChars "_id", .vNull),
                (outField, .vInt (docs.foldl (fun acc doc =>
                  match List.lookup fname doc with
                  | some (Json.vInt n) => acc + n
                  | _ => acc) 0))]]
        else .error (toChars "unsupported pipeline")
      | [] => .error (toChars "unsupported pipeline")
    else .error (toChars "unsupported pipeline")
  | _ => .error (toChars "unsupported pipeline")

/-- An accounts store holding balances 100 and 250. -/
def accounts8 : List Doc :=
  [[(toChars "balance", Json.vInt 100)],
   [(toChars "balance", Json.vInt 250)]]

/-- The total-balance `$group`/`$sum` pipeline from the spec's example. -/
def pipe8 : Json :=
  .vArr [.vObj [(toChars "$group", .vObj
    [(toChars "_id", .vNull),
     (toChars "totalBalance", .vObj
       [(toChars "$sum", .vStr (toChars "$balance"))])])]]

/-- The raw model text of the total-balance directive. -/
def dir8Text : Str :=
  toChars "\x7b\"collection\": \"accounts\", \"pipeline\": [\x7b\"$group\": \x7b\"_id\": null, \"totalBalance\": \x7b\"$sum\": \"$balance\"\x7d\x7d\x7d]\x7d"

/-- The parsed total-balance directive. -/
def dir8Json : Json :=
  .vObj [(toChars "collection", .vStr (toChars "accounts")),
         (toChars "pipeline", pipe8)]

/-- The summarizer's reply in the total-balance scenario. -/
def sum8Text : Str := toChars "The total balance across all accounts is 350."

/-- Environment over the balances-[100, 250] store: the first (dispatch)
model call returns the directive, the second (summarization, no system
instruction) returns the summary. -/
def env8 : Env :=
  { baseEnv with
    generate := fun _ _ cfg =>
      match cfg.system_instruction with
      | some _ => .ok dir8Text
      | none => .ok sum8Text
    json_loads := fun s => if s == dir8Text then some dir8Json else none
    aggregate := fun cn pl =>
      match cn with
      | .vStr s =>
        if s == toChars "accounts" then mongoGroupSum accounts8 pl
        else .error (toChars "no such collection")
      | _ => .error (toChars "bad collection name") }

/-- The user question of the total-balance scenario. -/
def msg8 : Str := toChars "Show me the total balance of all accounts"

/-- Environment whose model output parses to a JSON array. -/
def env10 : Env :=
  { baseEnv with
    generate := fun _ _ _ => .ok (toChars "[1, 2]")
    json_loads := fun s =>
      if s == toChars "[1, 2]" then some (.vArr [.vInt 1, .vInt 2]) else none }

/-- An inner text that defeats exact fence stripping under a plain fence. -/
def c4cexInner : Str := toChars "json42"

/-- A JSON parser behaviour on the two strings of the fence counterexample:
"42" parses to the number 42, "json42" is not valid JSON. -/
def cexLoads : Str → Option Json :=
  fun s => if s == toChars "42" then some (.vInt 42) else none

/-- A well-behaved inner text for the fence-stripping witness. -/
def c4inner : Str := toChars "\x7b\"answer\": 1\x7d"

/-! ### Helper lemmas -/

theorem startsWith_iff (p q : Str) : p.isPrefixOf q = true ↔ ∃ r, q = p ++ r := by
  rw [ List.isPrefixOf_iff_prefix]
  constructor
  · rintro ⟨r, hr⟩
    exact ⟨r, hr.symm⟩
  · rintro ⟨r, hr⟩
    exact ⟨r, hr.symm⟩

theorem endsWith_iff (p q : Str) : p.isSuffixOf q = true ↔ ∃ r, q = r ++ p := by
  rw [ List.isSuffixOf_iff_suffix]
  constructor
  · rintro ⟨r, hr⟩
    exact ⟨r, hr.symm⟩
  · rintro ⟨r, hr⟩
    exact ⟨r, hr.symm⟩

theorem startsWith_append (p r : Str) : p.isPrefixOf (p ++ r) = true :=
  (startsWith_iff p (p ++ r)).mpr ⟨r, rfl⟩

theorem endsWith_append (r p : Str) : p.isSuffixOf (r ++ p) = true :=
  (endsWith_iff p (r ++ p)).mpr ⟨r, rfl⟩

theorem startsWith_cancel (p q r : Str) :
    (p ++ q).isPrefixOf (p ++ r) = q.isPrefixOf r := by
  induction p with
  | nil => rfl
  | cons c t ih =>
    show (c == c && (t ++ q).isPrefixOf (t ++ r)) = q.isPrefixOf r
    rw [beq_self_eq_true]
    simpa using ih

theorem dropWhile_append_all {p : Char → Bool} (a s : Str)
    (h : ∀ c ∈ a, p c = true) : (a ++ s).dropWhile p = s.dropWhile p := by
  induction a with
  | nil => rfl
  | cons c t ih =>
    have hc : p c = true := h c (by simp)
    simp only [List.cons_append, List.dropWhile_cons, hc, if_true]
    exact ih (fun x hx => h x (by simp [hx]))

theorem dropWhile_head_false {p : Char → Bool} (c : Char) (t : Str)
    (h : p c = false) : (c :: t).dropWhile p = c :: t := by
  simp [List.dropWhile_cons, h]

theorem pyStrip_sandwich (a b s : Str)
    (ha : ∀ c ∈ a, isSpace c = true) (hb : ∀ c ∈ b, isSpace c = true)
    (hhead : ∃ c t, s = c :: t ∧ isSpace c = false)
    (hlast : ∃ c, s.getLast? = some c ∧ isSpace c = false) :
    pyStrip (a ++ s ++ b) = s := by
  obtain ⟨c, t, rfl, hc⟩ := hhead
  obtain ⟨cl, hcl, hns⟩ := hlast
  unfold pyStrip
  rw [List.append_assoc, dropWhile_append_all a _ ha]
  rw [show (c :: t) ++ b = c :: (t ++ b) from rfl]
  rw [dropWhile_head_false c (t ++ b) hc]
  rw [show c :: (t ++ b) = (c :: t) ++ b from rfl, List.reverse_append]
  rw [dropWhile_append_all b.reverse _
    (fun x hx => hb x (List.mem_reverse.mp hx))]
  obtain ⟨c2, t2, h2⟩ : ∃ c2 t2, (c :: t).reverse = c2 :: t2 := by
    cases hrev : (c :: t).reverse with
    | nil =>
      exact absurd (List.reverse_eq_nil_iff.mp hrev) (List.cons_ne_nil c t)
    | cons x y => exact ⟨x, y, rfl⟩
  have hc2 : c2 = cl := by
    have := List.head?_reverse (c :: t)
    rw [h2, hcl] at this
    exact (Option.some_inj.mp this)
  rw [h2, dropWhile_head_false c2 t2 (hc2 ▸ hns), ← h2, List.reverse_reverse]

theorem pyStrip_eq_self (s : Str)
    (hhead : ∃ c t, s = c :: t ∧ isSpace c = false)
    (hlast : ∃ c, s.getLast? = some c ∧ isSpace c = false) :
    pyStrip s = s := by
  have h := pyStrip_sandwich [] [] s (by simp) (by simp) hhead hlast
  simpa using h

theorem stripCodeFences_json_wrap (inner : Str)
    (h1 : (toChars "```").isPrefixOf (inner ++ toChars "```") = false) :
    stripCodeFences (toChars "```json" ++ (inner ++ toChars "```")) = inner := by
  unfold stripCodeFences
  rw [startsWith_append]
  simp only [if_true]
  rw [show (7 : Nat) = (toChars "```json").length from rfl, List.drop_left]
  rw [h1]
  simp only [Bool.false_eq_true, if_false]
  rw [endsWith_append inner (toChars "```")]
  simp only [if_true]
  rw [show (inner ++ toChars "```").length - 3 = inner.length from by
    simp [List.length_append, show (toChars "```").length = 3 from rfl]]
  exact List.take_left inner (toChars "```")

theorem stripCodeFences_plain_wrap (inner : Str)
    (hjson : (toChars "json").isPrefixOf (inner ++ toChars "```") = false) :
    stripCodeFences (toChars "```" ++ (inner ++ toChars "```")) = inner := by
  unfold stripCodeFences
  rw [show (toChars "```json" : Str) = toChars "```" ++ toChars "json" from rfl,
    startsWith_cancel, hjson]
  simp only [Bool.false_eq_true, if_false]
  rw [startsWith_append]
  simp only [if_true]
  rw [show (3 : Nat) = (toChars "```").length from rfl, List.drop_left]
  rw [endsWith_append inner (toChars "```")]
  simp only [if_true]
  rw [show (inner ++ toChars "```").length - (toChars "```").length
      = inner.length from by simp [List.length_append]]
  exact List.take_left inner (toChars "```")


theorem stripCodeFences_id (s : Str)
    (h2 : (toChars "```").isPrefixOf s = false)
    (h3 : (toChars "```").isSuffixOf s = false) :
    stripCodeFences s = s := by
  have h1 : (toChars "```json").isPrefixOf s = false := by
    cases hq : (toChars "```json").isPrefixOf s with
    | false => rfl
    | true =>
      exfalso
      obtain ⟨r, rfl⟩ := (startsWith_iff _ _).mp hq
      have hpre : (toChars "```").isPrefixOf (toChars "```json" ++ r) = true := by
        rw [show (toChars "```json" : Str) ++ r
            = toChars "```" ++ (toChars "json" ++ r) from by
          rw [show (toChars "```json" : Str)
              = toChars "```" ++ toChars "json" from rfl, List.append_assoc]]
        exact startsWith_append _ _
      rw [h2] at hpre
      exact Bool.noConfusion hpre
  unfold stripCodeFences
  simp only [h1, h2, h3, Bool.false_eq_true, if_false]

theorem dispatch_ok_cons (gen : Str → GenResult) (m : Str) (rest : List Str)
    (t : Str) (h : gen m = .ok t) :
    dispatch gen (m :: rest) = (.success (pyStrip t) m, [m]) := by
  simp [dispatch, h]

theorem dispatch_retry_cons (gen : Str → GenResult) (m : Str) (rest : List Str)
    (e : Str) (h : gen m = .error e) (hr : isRetryableErr e = true) :
    dispatch gen (m :: rest)
      = ((dispatch gen rest).1, m :: (dispatch gen rest).2) := by
  simp [dispatch, h, hr]

theorem dispatch_abort_cons (gen : Str → GenResult) (m : Str) (rest : List Str)
    (e : Str) (h : gen m = .error e) (hr : isRetryableErr e = false) :
    dispatch gen (m :: rest) = (.raised e, [m]) := by
  simp [dispatch, h, hr]

theorem dispatch_calls_pre (gen : Str → GenResult) :
    ∀ ms : List Str, (dispatch gen ms).2 <+: ms := by
  intro ms
  induction ms with
  | nil => exact ⟨[], rfl⟩
  | cons m rest ih =>
    cases hg : gen m with
    | ok t =>
      rw [dispatch_ok_cons gen m rest t hg]
      exact ⟨rest, rfl⟩
    | error e =>
      cases hr : isRetryableErr e with
      | true =>
        rw [dispatch_retry_cons gen m rest e hg hr]
        obtain ⟨tl, htl⟩ := ih
        exact ⟨tl, by rw [List.cons_append, htl]⟩
      | false =>
        rw [dispatch_abort_cons gen m rest e hg hr]
        exact ⟨rest, rfl⟩

theorem dispatch_all_retry (gen : Str → GenResult) :
    ∀ ms : List Str,
      (∀ m ∈ ms, ∃ e, gen m = .error e ∧ isRetryableErr e = true) →
      dispatch gen ms = (.exhausted, ms) := by
  intro ms
  induction ms with
  | nil => intro _; rfl
  | cons m rest ih =>
    intro h
    obtain ⟨e, he, hr⟩ := h m (by simp)
    rw [dispatch_retry_cons gen m rest e he hr,
      ih (fun x hx => h x (by simp [hx]))]

theorem chat_noDb_eq (env : Env) (msg : Str) (h : env.dbConfigured = false) :
    chat_endpoint env msg = ⟨⟨noDbMsg, none⟩, ⟨[], []⟩⟩ := by
  unfold chat_endpoint
  rw [h, if_pos rfl]

theorem chat_noKey_eq (env : Env) (msg : Str) (hdb : env.dbConfigured = true)
    (h : env.geminiReady = false) :
    chat_endpoint env msg = ⟨⟨noKeyMsg, none⟩, ⟨[], []⟩⟩ := by
  unfold chat_endpoint
  rw [hdb, if_neg (by simp), h, if_pos rfl]

theorem chat_raised_eq (env : Env) (msg : Str) (e : Str) (calls : List Str)
    (hdb : env.dbConfigured = true) (hg : env.geminiReady = true)
    (hd : dispatch (chatGen env msg) models_to_try = (.raised e, calls)) :
    chat_endpoint env msg
      = ⟨⟨errorMsg e, none⟩, ⟨tracedCalls env msg calls, []⟩⟩ := by
  unfold chat_endpoint
  rw [hdb, if_neg (by simp), hg, if_neg (by simp), hd]

theorem chat_exhausted_eq (env : Env) (msg : Str) (calls : List Str)
    (hdb : env.dbConfigured = true) (hg : env.geminiReady = true)
    (hd : dispatch (chatGen env msg) models_to_try = (.exhausted, calls)) :
    chat_endpoint env msg
      = ⟨⟨quotaMsg, none⟩, ⟨tracedCalls env msg calls, []⟩⟩ := by
  unfold chat_endpoint
  rw [hdb, if_neg (by simp), hg, if_neg (by simp), hd]

theorem chat_success_eq (env : Env) (msg t model : Str) (calls : List Str)
    (hdb : env.dbConfigured = true) (hg : env.geminiReady = true)
    (hd : dispatch (chatGen env msg) models_to_try
      = (.success t model, calls)) :
    chat_endpoint env msg
      = afterDispatch env msg model t (tracedCalls env msg calls) := by
  unfold chat_endpoint
  rw [hdb, if_neg (by simp), hg, if_neg (by simp), hd]

theorem afterDispatch_parseFail (env : Env) (msg model t : Str)
    (dcs : List ModelCall) (h : env.json_loads (cleanContent t) = none) :
    afterDispatch env msg model t dcs
      = ⟨⟨parseFailMsg (cleanContent t), none⟩, ⟨dcs, []⟩⟩ := by
  simp only [afterDispatch, h]

theorem afterDispatch_parsed (env : Env) (msg model t : Str)
    (dcs : List ModelCall) (parsed : Json)
    (h : env.json_loads (cleanContent t) = some parsed) :
    afterDispatch env msg model t dcs
      = interpretParsed env msg model parsed dcs := by
  simp only [afterDispatch, h]

theorem interpretParsed_directive (env : Env) (msg model : Str)
    (fields : List (Str × Json)) (dcs : List ModelCall)
    (hconv : isConversationTag (List.lookup (toChars "type") fields) = false) :
    interpretParsed env msg model (.vObj fields) dcs
      = runDirective env msg model fields dcs := by
  simp only [interpretParsed, hconv, Bool.false_eq_true, if_false]

theorem runDirective_run (env : Env) (msg model : Str)
    (fields : List (Str × Json)) (dcs : List ModelCall) (cn pl : Json)
    (hcn : List.lookup (toChars "collection") fields = some cn)
    (hpl : List.lookup (toChars "pipeline") fields = some pl)
    (htc : pyTruthy cn = true) (htp : pyTruthy pl = true) :
    runDirective env msg model fields dcs = execQuery env msg model cn pl dcs := by
  simp only [runDirective, hcn, hpl, htc, htp, Bool.and_self, if_true]

theorem execQuery_error (env : Env) (msg model : Str) (cn pl : Json)
    (dcs : List ModelCall) (e : Str) (h : env.aggregate cn pl = .error e) :
    execQuery env msg model cn pl dcs
      = ⟨⟨errorMsg e, none⟩, ⟨dcs, [(cn, pl)]⟩⟩ := by
  simp only [execQuery, h]

theorem execQuery_empty (env : Env) (msg model : Str) (cn pl : Json)
    (dcs : List ModelCall) (h : env.aggregate cn pl = .ok []) :
    execQuery env msg model cn pl dcs
      = ⟨⟨noResultsMsg (pyStr cn), some (.vObj [(toChars "query", pl)])⟩,
          ⟨dcs, [(cn, pl)]⟩⟩ := by
  simp only [execQuery, h, List.map_nil, List.length_nil]
  rw [if_pos trivial]

theorem execQuery_summary_ok (env : Env) (msg model : Str) (cn pl : Json)
    (dcs : List ModelCall) (rawResults : List Doc) (t : Str)
    (hagg : env.aggregate cn pl = .ok rawResults) (hne : rawResults ≠ [])
    (hgen : env.generate model (execPrompt env msg (rawResults.map stringifyDoc))
      summaryConfig = .ok t) :
    execQuery env msg model cn pl dcs
      = ⟨⟨pyStrip t, some (docsToJson (rawResults.map stringifyDoc))⟩,
          ⟨dcs ++ [⟨model, execPrompt env msg (rawResults.map stringifyDoc),
            summaryConfig⟩], [(cn, pl)]⟩⟩ := by
  simp only [execQuery, hagg]
  rw [if_neg (by
    intro h
    exact hne (List.length_eq_zero.mp (by rwa [List.length_map] at h)))]
  rw [hgen]

theorem execQuery_summary_err (env : Env) (msg model : Str) (cn pl : Json)
    (dcs : List ModelCall) (rawResults : List Doc) (e : Str)
    (hagg : env.aggregate cn pl = .ok rawResults) (hne : rawResults ≠ [])
    (hgen : env.generate model (execPrompt env msg (rawResults.map stringifyDoc))
      summaryConfig = .error e) :
    execQuery env msg model cn pl dcs
      = ⟨⟨errorMsg e, none⟩,
          ⟨dcs ++ [⟨model, execPrompt env msg (rawResults.map stringifyDoc),
            summaryConfig⟩], [(cn, pl)]⟩⟩ := by
  simp only [execQuery, hagg]
  rw [if_neg (by
    intro h
    exact hne (List.length_eq_zero.mp (by rwa [List.length_map] at h)))]
  rw [hgen]

theorem chat_query_eq (env : Env) (msg t model : Str) (calls : List Str)
    (fields : List (Str × Json)) (cn pl : Json)
    (hdb : env.dbConfigured = true) (hg : env.geminiReady = true)
    (hd : dispatch (chatGen env msg) models_to_try = (.success t model, calls))
    (hload : env.json_loads (cleanContent t) = some (.vObj fields))
    (hconv : isConversationTag (List.lookup (toChars "type") fields) = false)
    (hcn : List.lookup (toChars "collection") fields = some cn)
    (hpl : List.lookup (toChars "pipeline") fields = some pl)
    (htc : pyTruthy cn = true) (htp : pyTruthy pl = true) :
    chat_endpoint env msg
      = execQuery env msg model cn pl (tracedCalls env msg calls) := by
  rw [chat_success_eq env msg t model calls hdb hg hd,
    afterDispatch_parsed env msg model t _ _ hload,
    interpretParsed_directive env msg model fields _ hconv,
    runDirective_run env msg model fields _ cn pl hcn hpl htc htp]

/-! ### Claim theorems -/

/-- C2: the dispatcher tries the candidate identifiers strictly in order
(the invoked list is a prefix of the candidate list); a success stops the
loop with that model's stripped text and identifier; a failure classified
retryable (quota-exhaustion 429/RESOURCE_EXHAUSTED/"quota", not-found
404/NOT_FOUND, invalid-argument 400/INVALID_ARGUMENT) continues to the next
identifier; any other failure aborts the loop surfacing that error; and for
`[A, B, C]` with A failing retryably and B succeeding, the dispatcher
returns B's text and identifier and never invokes C. -/
theorem dispatch_order_correct :
    (∀ (gen : Str → GenResult) (ms : List Str), (dispatch gen ms).2 <+: ms)
  ∧ (∀ (gen : Str → GenResult) (m : Str) (rest : List Str) (t : Str),
      gen m = .ok t →
      dispatch gen (m :: rest) = (.success (pyStrip t) m, [m]))
  ∧ (∀ (gen : Str → GenResult) (m : Str) (rest : List Str) (e : Str),
      gen m = .error e → isRetryableErr e = true →
      dispatch gen (m :: rest)
        = ((dispatch gen rest).1, m :: (dispatch gen rest).2))
  ∧ (∀ (gen : Str → GenResult) (m : Str) (rest : List Str) (e : Str),
      gen m = .error e → isRetryableErr e = false →
      dispatch gen (m :: rest) = (.raised e, [m]))
  ∧ (∀ (gen : Str → GenResult) (A B C e t : Str),
      gen A = .error e → isRetryableErr e = true → gen B = .ok t →
      dispatch gen [A, B, C] = (.success (pyStrip t) B, [A, B])) := by
  refine ⟨dispatch_calls_pre, dispatch_ok_cons, dispatch_retry_cons,
    dispatch_abort_cons, ?_⟩
  intro gen A B C e t hA hr hB
  rw [dispatch_retry_cons gen A [B, C] e hA hr,
    dispatch_ok_cons gen B [C] t hB]

/-- Witness for C2: on the concrete client `c2gen` the dispatcher skips the
quota-failing modelA, answers with modelB's output, and never calls modelC. -/
theorem dispatch_order_correct_witness :
    dispatch c2gen [toChars "modelA", toChars "modelB", toChars "modelC"]
      = (.success (pyStrip (toChars "some output")) (toChars "modelB"),
          [toChars "modelA", toChars "modelB"]) :=
  dispatch_order_correct.2.2.2.2 c2gen (toChars "modelA") (toChars "modelB")
    (toChars "modelC") (toChars "429 RESOURCE_EXHAUSTED: quota")
    (toChars "some output") rfl (by decide) rfl

/-- C3: when every candidate model fails with a retryable signal, the
dispatch loop ends in the distinct `exhausted` state (not an exception),
and `/chat` answers with the all-models-exceeded-quota advisory, with no
database call in the trace. -/
theorem quota_exhaustion_advisory (env : Env) (msg : Str)
    (hdb : env.dbConfigured = true) (hg : env.geminiReady = true)
    (hall : ∀ m ∈ models_to_try,
      ∃ e, chatGen env msg m = .error e ∧ isRetryableErr e = true) :
    dispatch (chatGen env msg) models_to_try = (.exhausted, models_to_try)
    ∧ chat_endpoint env msg
        = ⟨⟨quotaMsg, none⟩, ⟨tracedCalls env msg models_to_try, []⟩⟩ := by
  have hd := dispatch_all_retry (chatGen env msg) models_to_try hall
  exact ⟨hd, chat_exhausted_eq env msg models_to_try hdb hg hd⟩

/-- Witness for C3: in `env3` every model call fails with "429 quota
exceeded" and the endpoint returns the quota advisory with no database
call. -/
theorem quota_exhaustion_advisory_witness :
    chat_endpoint env3 (toChars "hello")
      = ⟨⟨quotaMsg, none⟩,
          ⟨tracedCalls env3 (toChars "hello") models_to_try, []⟩⟩ :=
  (quota_exhaustion_advisory env3 (toChars "hello") rfl rfl
    (fun _ _ => ⟨toChars "429 quota exceeded", rfl, by decide⟩)).2

/-- C1: `POST /chat` is a total function into 200-responses — the embedding
returns a `ChatResponse` for every environment and request — and each failure
mode produces its explanatory `response` string: missing database, missing
model client, all candidates exhausted, directive parse failure, query
execution failure, and summarization failure (the last three via the
advisories or the outermost handler's "An error occurred" text). -/
theorem chat_never_raises (env : Env) (msg : Str) :
    (env.dbConfigured = false →
      chat_endpoint env msg = ⟨⟨noDbMsg, none⟩, ⟨[], []⟩⟩)
  ∧ (env.dbConfigured = true → env.geminiReady = false →
      chat_endpoint env msg = ⟨⟨noKeyMsg, none⟩, ⟨[], []⟩⟩)
  ∧ (∀ calls : List Str, env.dbConfigured = true → env.geminiReady = true →
      dispatch (chatGen env msg) models_to_try = (.exhausted, calls) →
      (chat_endpoint env msg).resp = ⟨quotaMsg, none⟩)
  ∧ (∀ (e : Str) (calls : List Str),
      env.dbConfigured = true → env.geminiReady = true →
      dispatch (chatGen env msg) models_to_try = (.raised e, calls) →
      (chat_endpoint env msg).resp = ⟨errorMsg e, none⟩)
  ∧ (∀ (t model : Str) (calls : List Str),
      env.dbConfigured = true → env.geminiReady = true →
      dispatch (chatGen env msg) models_to_try = (.success t model, calls) →
      env.json_loads (cleanContent t) = none →
      (chat_endpoint env msg).resp = ⟨parseFailMsg (cleanContent t), none⟩)
  ∧ (∀ (t model : Str) (calls : List Str) (fields : List (Str × Json))
      (cn pl : Json) (e : Str),
      env.dbConfigured = true → env.geminiReady = true →
      dispatch (chatGen env msg) models_to_try = (.success t model, calls) →
      env.json_loads (cleanContent t) = some (.vObj fields) →
      isConversationTag (List.lookup (toChars "type") fields) = false →
      List.lookup (toChars "collection") fields = some cn →
      List.lookup (toChars "pipeline") fields = some pl →
      pyTruthy cn = true → pyTruthy pl = true →
      env.aggregate cn pl = .error e →
      (chat_endpoint env msg).resp = ⟨errorMsg e, none⟩)
  ∧ (∀ (t model : Str) (calls : List Str) (fields : List (Str × Json))
      (cn pl : Json) (rawResults : List Doc) (e : Str),
      env.dbConfigured = true → env.geminiReady = true →
      dispatch (chatGen env msg) models_to_try = (.success t model, calls) →
      env.json_loads (cleanContent t) = some (.vObj fields) →
      isConversationTag (List.lookup (toChars "type") fields) = false →
      List.lookup (toChars "collection") fields = some cn →
      List.lookup (toChars "pipeline") fields = some pl →
      pyTruthy cn = true → pyTruthy pl = true →
      env.aggregate cn pl = .ok rawResults → rawResults ≠ [] →
      env.generate model (execPrompt env msg (rawResults.map stringifyDoc))
        summaryConfig = .error e →
      (chat_endpoint env msg).resp = ⟨errorMsg e, none⟩) := by
  refine ⟨?_, ?_, ?_, ?_, ?_, ?_, ?_⟩
  · intro h
    exact chat_noDb_eq env msg h
  · intro hdb hg
    exact chat_noKey_eq env msg hdb hg
  · intro calls hdb hg hd
    rw [chat_exhausted_eq env msg calls hdb hg hd]
  · intro e calls hdb hg hd
    rw [chat_raised_eq env msg e calls hdb hg hd]
  · intro t model calls hdb hg hd hload
    rw [chat_success_eq env msg t model calls hdb hg hd,
      afterDispatch_parseFail env msg model t _ hload]
  · intro t model calls fields cn pl e hdb hg hd hload hconv hcn hpl htc htp hagg
    rw [chat_query_eq env msg t model calls fields cn pl hdb hg hd hload hconv
        hcn hpl htc htp,
      execQuery_error env msg model cn pl _ e hagg]
  · intro t model calls fields cn pl rawResults e hdb hg hd hload hconv hcn hpl
      htc htp hagg hne hgen
    rw [chat_query_eq env msg t model calls fields cn pl hdb hg hd hload hconv
        hcn hpl htc htp,
      execQuery_summary_err env msg model cn pl _ rawResults e hagg hne hgen]

/-- Witness for C1: with no database configured, the endpoint answers with
the database advisory. -/
theorem chat_never_raises_witness :
    chat_endpoint envNoDb (toChars "hello")
      = ⟨⟨noDbMsg, none⟩, ⟨[], []⟩⟩ :=
  (chat_never_raises envNoDb (toChars "hello")).1 rfl

/-- C5: a model output parsed as a JSON object tagged `type ==
"conversation"` makes `/chat` answer with exactly the object's `message`
field, null data, and no database call. -/
theorem conversation_reply (env : Env) (msg t model : Str) (calls : List Str)
    (fields : List (Str × Json)) (m : Str)
    (hdb : env.dbConfigured = true) (hg : env.geminiReady = true)
    (hd : dispatch (chatGen env msg) models_to_try = (.success t model, calls))
    (hload : env.json_loads (cleanContent t) = some (.vObj fields))
    (htype : isConversationTag (List.lookup (toChars "type") fields) = true)
    (hmsg : List.lookup (toChars "message") fields = some (.vStr m)) :
    chat_endpoint env msg = ⟨⟨m, none⟩, ⟨tracedCalls env msg calls, []⟩⟩ := by
  rw [chat_success_eq env msg t model calls hdb hg hd,
    afterDispatch_parsed env msg model t _ _ hload]
  simp only [interpretParsed, htype, if_true, hmsg]

/-- Witness for C5: the reply `{"type": "conversation", "message": "Hi"}`
yields `{response: "Hi", data: null}` with zero database calls. -/
theorem conversation_reply_witness :
    chat_endpoint env5 (toChars "hello")
      = ⟨⟨toChars "Hi", none⟩,
          ⟨tracedCalls env5 (toChars "hello") [toChars "gemini-1.5-flash"],
            []⟩⟩ :=
  conversation_reply env5 (toChars "hello") conv5Text
    (toChars "gemini-1.5-flash") [toChars "gemini-1.5-flash"]
    [(toChars "type", .vStr (toChars "conversation")),
     (toChars "message", .vStr (toChars "Hi"))]
    (toChars "Hi") rfl rfl rfl rfl rfl rfl

/-- C7: a valid directive whose execution returns zero records yields the
"No results found for your query in the ... collection." advisory whose
`data.query` is exactly the executed pipeline, with no summarization call
added to the trace. -/
theorem empty_results (env : Env) (msg t model : Str) (calls : List Str)
    (fields : List (Str × Json)) (cn pl : Json)
    (hdb : env.dbConfigured = true) (hg : env.geminiReady = true)
    (hd : dispatch (chatGen env msg) models_to_try = (.success t model, calls))
    (hload : env.json_loads (cleanContent t) = some (.vObj fields))
    (hconv : isConversationTag (List.lookup (toChars "type") fields) = false)
    (hcn : List.lookup (toChars "collection") fields = some cn)
    (hpl : List.lookup (toChars "pipeline") fields = some pl)
    (htc : pyTruthy cn = true) (htp : pyTruthy pl = true)
    (hagg : env.aggregate cn pl = .ok []) :
    chat_endpoint env msg
      = ⟨⟨noResultsMsg (pyStr cn), some (.vObj [(toChars "query", pl)])⟩,
          ⟨tracedCalls env msg calls, [(cn, pl)]⟩⟩ := by
  rw [chat_query_eq env msg t model calls fields cn pl hdb hg hd hload hconv
      hcn hpl htc htp,
    execQuery_empty env msg model cn pl _ hagg]

/-- Witness for C7: the loans directive matching zero records yields the
no-results advisory echoing its pipeline. -/
theorem empty_results_witness :
    chat_endpoint env7 (toChars "open loans")
      = ⟨⟨noResultsMsg (pyStr (.vStr (toChars "loans"))),
          some (.vObj [(toChars "query", pipe7)])⟩,
          ⟨tracedCalls env7 (toChars "open loans")
            [toChars "gemini-1.5-flash"], [(.vStr (toChars "loans"), pipe7)]⟩⟩ :=
  empty_results env7 (toChars "open loans") dir7Text
    (toChars "gemini-1.5-flash") [toChars "gemini-1.5-flash"]
    [(toChars "collection", .vStr (toChars "loans")),
     (toChars "pipeline", pipe7)]
    (.vStr (toChars "loans")) pipe7 rfl rfl rfl rfl rfl rfl rfl
    (by decide) (by decide) rfl

/-- C6 counterexample: for the model output `{"collection": "accounts"}` —
valid JSON lacking a `pipeline` — the endpoint answers with the fixed
"Sorry, I couldn't understand..." advisory, which does not include the raw
offending model output, contradicting the claim that the advisory includes
the raw output in the missing-field case. -/
theorem parse_advisory_cex :
    (chat_endpoint env6c (toChars "list accounts")).resp.response
      = cantQueryMsg
    ∧ ¬ (dir6Text <:+: cantQueryMsg) := by
  exact ⟨rfl, by decide⟩

/-- C6 (amended): output that is not valid JSON yields the parse advisory
containing the raw (cleaned) model output and no database call; output that
parses to an object lacking a truthy `collection` or `pipeline` yields the
fixed "Sorry, I couldn't understand..." advisory (which does not echo the
output), also with no database call. -/
theorem parse_advisory_amended (env : Env) (msg t model : Str)
    (calls : List Str)
    (hdb : env.dbConfigured = true) (hg : env.geminiReady = true)
    (hd : dispatch (chatGen env msg) models_to_try
      = (.success t model, calls)) :
    (env.json_loads (cleanContent t) = none →
      chat_endpoint env msg
        = ⟨⟨parseFailMsg (cleanContent t), none⟩,
            ⟨tracedCalls env msg calls, []⟩⟩
      ∧ cleanContent t <:+: parseFailMsg (cleanContent t))
  ∧ (∀ fields : List (Str × Json),
      env.json_loads (cleanContent t) = some (.vObj fields) →
      isConversationTag (List.lookup (toChars "type") fields) = false →
      (∀ cn pl : Json,
        List.lookup (toChars "collection") fields = some cn →
        List.lookup (toChars "pipeline") fields = some pl →
        (pyTruthy cn && pyTruthy pl) = false) →
      chat_endpoint env msg
        = ⟨⟨cantQueryMsg, none⟩, ⟨tracedCalls env msg calls, []⟩⟩) := by
  constructor
  · intro hload
    refine ⟨by
      rw [chat_success_eq env msg t model calls hdb hg hd,
        afterDispatch_parseFail env msg model t _ hload], ?_⟩
    exact ⟨toChars "AI Error: Failed to parse response. Raw: ", [],
      by simp [parseFailMsg]⟩
  · intro fields hload hconv hbad
    rw [chat_success_eq env msg t model calls hdb hg hd,
      afterDispatch_parsed env msg model t _ _ hload,
      interpretParsed_directive env msg model fields _ hconv]
    cases hc : List.lookup (toChars "collection") fields with
    | none => simp only [runDirective, hc]
    | some cn =>
      cases hp : List.lookup (toChars "pipeline") fields with
      | none => simp only [runDirective, hc, hp]
      | some pl =>
        have hb := hbad cn pl hc hp
        simp only [runDirective, hc, hp, hb, Bool.false_eq_true, if_false]

/-- Witness for C6 (amended): the non-JSON model output "not json" yields
the parse advisory that contains it, and no database call. -/
theorem parse_advisory_amended_witness :
    chat_endpoint env6w (toChars "hello")
      = ⟨⟨parseFailMsg (cleanContent (toChars "not json")), none⟩,
          ⟨tracedCalls env6w (toChars "hello") [toChars "gemini-1.5-flash"],
            []⟩⟩
    ∧ cleanContent (toChars "not json")
        <:+: parseFailMsg (cleanContent (toChars "not json")) :=
  (parse_advisory_amended env6w (toChars "hello") (toChars "not json")
    (toChars "gemini-1.5-flash") [toChars "gemini-1.5-flash"]
    rfl rfl rfl).1 rfl

/-- C10: model output that parses to valid JSON which is not an object
triggers the `.get` attribute failure and hence the outermost handler's
generic "An error occurred" response (for a conversation-tagged object
lacking `message`, the `KeyError` path does likewise); neither equals the
parse-failure advisory; no database call is made. -/
theorem non_object_parse (env : Env) (msg t model : Str) (calls : List Str)
    (hdb : env.dbConfigured = true) (hg : env.geminiReady = true)
    (hd : dispatch (chatGen env msg) models_to_try
      = (.success t model, calls)) :
    (∀ parsed : Json, env.json_loads (cleanContent t) = some parsed →
      (∀ fs : List (Str × Json), parsed ≠ .vObj fs) →
      chat_endpoint env msg
        = ⟨⟨errorMsg (attrErrMsg parsed), none⟩,
            ⟨tracedCalls env msg calls, []⟩⟩)
  ∧ (∀ fields : List (Str × Json),
      env.json_loads (cleanContent t) = some (.vObj fields) →
      isConversationTag (List.lookup (toChars "type") fields) = true →
      List.lookup (toChars "message") fields = none →
      chat_endpoint env msg
        = ⟨⟨errorMsg keyErrMsg, none⟩, ⟨tracedCalls env msg calls, []⟩⟩)
  ∧ (∀ e raw : Str, errorMsg e ≠ parseFailMsg raw) := by
  refine ⟨?_, ?_, ?_⟩
  · intro parsed hload hne
    rw [chat_success_eq env msg t model calls hdb hg hd,
      afterDispatch_parsed env msg model t _ _ hload]
    cases parsed with
    | vObj fs => exact absurd rfl (hne fs)
    | vNull => rfl
    | vBool b => rfl
    | vInt n => rfl
    | vStr s => rfl
    | vArr xs => rfl
  · intro fields hload htype hmsg
    rw [chat_success_eq env msg t model calls hdb hg hd,
      afterDispatch_parsed env msg model t _ _ hload]
    simp only [interpretParsed, htype, if_true, hmsg]
  · intro e raw h
    have h4 := congrArg (List.take 4) h
    rw [show List.take 4 (errorMsg e) = toChars "An e" from rfl,
      show List.take 4 (parseFailMsg raw) = toChars "AI E" from rfl] at h4
    exact absurd h4 (by decide)

/-- Witness for C10: the model output "[1, 2]" parses to a JSON array and
the endpoint answers with the generic AttributeError message and no
database call. -/
theorem non_object_parse_witness :
    chat_endpoint env10 (toChars "hello")
      = ⟨⟨errorMsg (attrErrMsg (.vArr [.vInt 1, .vInt 2])), none⟩,
          ⟨tracedCalls env10 (toChars "hello") [toChars "gemini-1.5-flash"],
            []⟩⟩ :=
  (non_object_parse env10 (toChars "hello") (toChars "[1, 2]")
    (toChars "gemini-1.5-flash") [toChars "gemini-1.5-flash"]
    rfl rfl rfl).1 (.vArr [.vInt 1, .vInt 2]) rfl
    (fun _ h => Json.noConfusion h)

/-- C8: after executing a directive, every value of every result record is
replaced by its display string (`stringifyDoc`), and what `/chat` embeds as
`data` is exactly that string-converted result list; in particular, the
spec's `$group`/`$sum` example over balances [100, 250] produces one record
whose `totalBalance` is the display string of 350. -/
theorem query_results_stringified :
    (∀ (env : Env) (msg t model : Str) (calls : List Str)
      (fields : List (Str × Json)) (cn pl : Json) (rawResults : List Doc)
      (s : Str),
      env.dbConfigured = true → env.geminiReady = true →
      dispatch (chatGen env msg) models_to_try = (.success t model, calls) →
      env.json_loads (cleanContent t) = some (.vObj fields) →
      isConversationTag (List.lookup (toChars "type") fields) = false →
      List.lookup (toChars "collection") fields = some cn →
      List.lookup (toChars "pipeline") fields = some pl →
      pyTruthy cn = true → pyTruthy pl = true →
      env.aggregate cn pl = .ok rawResults → rawResults ≠ [] →
      env.generate model (execPrompt env msg (rawResults.map stringifyDoc))
        summaryConfig = .ok s →
      chat_endpoint env msg
        = ⟨⟨pyStrip s, some (docsToJson (rawResults.map stringifyDoc))⟩,
            ⟨tracedCalls env msg calls
              ++ [⟨model, execPrompt env msg (rawResults.map stringifyDoc),
                summaryConfig⟩], [(cn, pl)]⟩⟩)
  ∧ (chat_endpoint env8 msg8).resp
      = ⟨sum8Text,
          some (.vArr [.vObj
            [(toChars "_id", .vStr (pyStr Json.vNull)),
             (toChars "totalBalance", .vStr (pyStr (Json.vInt 350)))]])⟩ := by
  constructor
  · intro env msg t model calls fields cn pl rawResults s hdb hg hd hload
      hconv hcn hpl htc htp hagg hne hgen
    rw [chat_query_eq env msg t model calls fields cn pl hdb hg hd hload hconv
        hcn hpl htc htp,
      execQuery_summary_ok env msg model cn pl _ rawResults s hagg hne hgen]
  · rfl

/-- Witness for C8: the full outcome of the balances-[100, 250] scenario
via the general statement. -/
theorem query_results_stringified_witness :
    chat_endpoint env8 msg8
      = ⟨⟨pyStrip sum8Text,
          some (docsToJson
            ([[(toChars "_id", Json.vNull),
               (toChars "totalBalance", Json.vInt 350)]].map stringifyDoc))⟩,
          ⟨tracedCalls env8 msg8 [toChars "gemini-1.5-flash"]
            ++ [⟨toChars "gemini-1.5-flash",
                execPrompt env8 msg8
                  ([[(toChars "_id", Json.vNull),
                     (toChars "totalBalance", Json.vInt 350)]].map
                    stringifyDoc),
                summaryConfig⟩],
            [(.vStr (toChars "accounts"), pipe8)]⟩⟩ :=
  query_results_stringified.1 env8 msg8 dir8Text (toChars "gemini-1.5-flash")
    [toChars "gemini-1.5-flash"]
    [(toChars "collection", .vStr (toChars "accounts")),
     (toChars "pipeline", pipe8)]
    (.vStr (toChars "accounts")) pipe8
    [[(toChars "_id", Json.vNull), (toChars "totalBalance", Json.vInt 350)]]
    sum8Text rfl rfl rfl rfl rfl rfl rfl (by decide) (by decide) rfl
    (List.cons_ne_nil _ _) rfl

/-- C9: on a non-empty result set the summarizer is invoked exactly once,
appended after the dispatch calls (all of which carry the dispatch config),
with the same model identifier that succeeded, at temperature 0.3, with a
prompt containing the original user message and built from at most the
first 10 result records plus the total count; the response is the
(stripped) summary text and `data` is the full string-converted result
set. -/
theorem summarizer_call (env : Env) (msg t model : Str) (calls : List Str)
    (fields : List (Str × Json)) (cn pl : Json) (rawResults : List Doc)
    (s : Str)
    (hdb : env.dbConfigured = true) (hg : env.geminiReady = true)
    (hd : dispatch (chatGen env msg) models_to_try = (.success t model, calls))
    (hload : env.json_loads (cleanContent t) = some (.vObj fields))
    (hconv : isConversationTag (List.lookup (toChars "type") fields) = false)
    (hcn : List.lookup (toChars "collection") fields = some cn)
    (hpl : List.lookup (toChars "pipeline") fields = some pl)
    (htc : pyTruthy cn = true) (htp : pyTruthy pl = true)
    (hagg : env.aggregate cn pl = .ok rawResults) (hne : rawResults ≠ [])
    (hgen : env.generate model
      (execPrompt env msg (rawResults.map stringifyDoc)) summaryConfig
      = .ok s) :
    chat_endpoint env msg
      = ⟨⟨pyStrip s, some (docsToJson (rawResults.map stringifyDoc))⟩,
          ⟨tracedCalls env msg calls
            ++ [⟨model, execPrompt env msg (rawResults.map stringifyDoc),
              summaryConfig⟩], [(cn, pl)]⟩⟩
    ∧ summaryConfig.temperature = (3 : ℚ)/10
    ∧ msg <:+: execPrompt env msg (rawResults.map stringifyDoc)
    ∧ ((rawResults.map stringifyDoc).take 10).length ≤ 10
    ∧ (∀ c ∈ tracedCalls env msg calls,
        c.config = dispatchConfig env.systemPrompt) := by
  refine ⟨?_, rfl, ?_, ?_, ?_⟩
  · rw [chat_query_eq env msg t model calls fields cn pl hdb hg hd hload hconv
        hcn hpl htc htp,
      execQuery_summary_ok env msg model cn pl _ rawResults s hagg hne hgen]
  · refine ⟨toChars "\n            User Question: \"", ?_, ?_⟩
    · exact toChars "\"\n            Database Results: "
        ++ env.json_dumps (docsToJson ((rawResults.map stringifyDoc).take 10))
        ++ toChars " (showing first 10 items out of "
        ++ toChars (toString (rawResults.map stringifyDoc).length)
        ++ toChars " total)\n            \n            Provide a clear, natural language summary. Include numbers and format currencies properly.\n            "
    · simp [execPrompt, summaryPrompt, List.append_assoc]
  · rw [List.length_take]
    exact Nat.min_le_left _ _
  · intro c hc
    obtain ⟨m, _, rfl⟩ := List.mem_map.mp hc
    rfl

/-- Witness for C9: in the balances scenario the summarization call is at
temperature 0.3 and its prompt contains the user question. -/
theorem summarizer_call_witness :
    summaryConfig.temperature = (3 : ℚ)/10
    ∧ msg8 <:+: execPrompt env8 msg8
        ([[(toChars "_id", Json.vNull),
           (toChars "totalBalance", Json.vInt 350)]].map stringifyDoc) :=
  have h := summarizer_call env8 msg8 dir8Text (toChars "gemini-1.5-flash")
    [toChars "gemini-1.5-flash"]
    [(toChars "collection", .vStr (toChars "accounts")),
     (toChars "pipeline", pipe8)]
    (.vStr (toChars "accounts")) pipe8
    [[(toChars "_id", Json.vNull), (toChars "totalBalance", Json.vInt 350)]]
    sum8Text rfl rfl rfl rfl rfl rfl rfl (by decide) (by decide) rfl
    (List.cons_ne_nil _ _) rfl
  ⟨h.2.1, h.2.2.1⟩

/-- C4 counterexample: wrapping the inner text "json42" in plain "```"
fences produces "```json42```", from which the interpreter strips the seven
characters "```json" — more than the fence markers — yielding "42" instead
of the inner text; a JSON parser on which "42" parses and "json42" does not
then gives different parse results for the wrapped and unwrapped forms. -/
theorem fence_strip_cex :
    stripCodeFences (toChars "```" ++ c4cexInner ++ toChars "```")
      = toChars "42"
    ∧ (toChars "42" = c4cexInner → False)
    ∧ (cexLoads (processModelText
          (toChars "```" ++ c4cexInner ++ toChars "```"))
        = cexLoads (processModelText c4cexInner) → False) := by
  refine ⟨by decide, by decide, ?_⟩
  intro h
  have h1 : (cexLoads (processModelText
      (toChars "```" ++ c4cexInner ++ toChars "```"))).isSome = true := by
    decide
  have h2 : (cexLoads (processModelText c4cexInner)).isSome = false := by
    decide
  rw [h] at h1
  rw [h1] at h2
  exact Bool.noConfusion h2

/-- C4 (amended): for inner text with non-whitespace edges that does not
start with a "```" run, does not continue the "```json" marker (no leading
"json"), and does not end with "```", stripping a "```json"-fence wrap or a
plain "```"-fence wrap (with surrounding whitespace) yields exactly the
inner text, so any JSON parser gives the same parse for the fence-wrapped
output as for the unwrapped equivalent. -/
theorem fence_strip_amended (inner ws1 ws2 : Str)
    (hws1 : ∀ c ∈ ws1, isSpace c = true)
    (hws2 : ∀ c ∈ ws2, isSpace c = true)
    (hhead : ∃ c t0, inner = c :: t0 ∧ isSpace c = false)
    (hlast : ∃ c, inner.getLast? = some c ∧ isSpace c = false)
    (h1 : (toChars "```").isPrefixOf (inner ++ toChars "```") = false)
    (h2 : (toChars "json").isPrefixOf (inner ++ toChars "```") = false)
    (h3 : (toChars "```").isSuffixOf inner = false) :
    processModelText
        (ws1 ++ (toChars "```json" ++ (inner ++ toChars "```")) ++ ws2)
      = inner
    ∧ processModelText
        (ws1 ++ (toChars "```" ++ (inner ++ toChars "```")) ++ ws2)
      = inner
    ∧ processModelText inner = inner
    ∧ ∀ loads : Str → Option Json,
        loads (processModelText
          (ws1 ++ (toChars "```json" ++ (inner ++ toChars "```")) ++ ws2))
        = loads (processModelText inner) := by
  have hW1head : ∃ c t0,
      toChars "```json" ++ (inner ++ toChars "```") = c :: t0
      ∧ isSpace c = false := by
    refine ⟨btick, toChars "``json" ++ (inner ++ toChars "```"), ?_, by decide⟩
    rw [show (toChars "```json" : Str) = btick :: toChars "``json" from rfl]
    rfl
  have hW1last : ∃ c,
      (toChars "```json" ++ (inner ++ toChars "```")).getLast? = some c
      ∧ isSpace c = false := by
    refine ⟨btick, ?_, by decide⟩
    rw [show (toChars "```json" : Str) ++ (inner ++ toChars "```")
        = (toChars "```json" ++ inner) ++ toChars "```" from by
      rw [List.append_assoc]]
    rw [List.getLast?_append_of_ne_nil _ (by decide)]
    decide
  have hW2head : ∃ c t0,
      toChars "```" ++ (inner ++ toChars "```") = c :: t0
      ∧ isSpace c = false := by
    refine ⟨btick, toChars "``" ++ (inner ++ toChars "```"), ?_, by decide⟩
    rw [show (toChars "```" : Str) = btick :: toChars "``" from rfl]
    rfl
  have hW2last : ∃ c,
      (toChars "```" ++ (inner ++ toChars "```")).getLast? = some c
      ∧ isSpace c = false := by
    refine ⟨btick, ?_, by decide⟩
    rw [show (toChars "```" : Str) ++ (inner ++ toChars "```")
        = (toChars "```" ++ inner) ++ toChars "```" from by
      rw [List.append_assoc]]
    rw [List.getLast?_append_of_ne_nil _ (by decide)]
    decide
  have hpre : (toChars "```").isPrefixOf inner = false := by
    cases hq : (toChars "```").isPrefixOf inner with
    | false => rfl
    | true =>
      exfalso
      obtain ⟨r, rfl⟩ := (startsWith_iff _ _).mp hq
      have hh : (toChars "```").isPrefixOf
          ((toChars "```" ++ r) ++ toChars "```") = true := by
        rw [List.append_assoc]
        exact startsWith_append _ _
      rw [h1] at hh
      exact Bool.noConfusion hh
  have hself : processModelText inner = inner := by
    unfold processModelText cleanContent
    rw [pyStrip_eq_self inner hhead hlast, stripCodeFences_id inner hpre h3,
      pyStrip_eq_self inner hhead hlast]
  have hjsonwrap : processModelText
      (ws1 ++ (toChars "```json" ++ (inner ++ toChars "```")) ++ ws2)
      = inner := by
    unfold processModelText cleanContent
    rw [pyStrip_sandwich ws1 ws2 _ hws1 hws2 hW1head hW1last,
      stripCodeFences_json_wrap inner h1,
      pyStrip_eq_self inner hhead hlast]
  have hplainwrap : processModelText
      (ws1 ++ (toChars "```" ++ (inner ++ toChars "```")) ++ ws2)
      = inner := by
    unfold processModelText cleanContent
    rw [pyStrip_sandwich ws1 ws2 _ hws1 hws2 hW2head hW2last,
      stripCodeFences_plain_wrap inner h2,
      pyStrip_eq_self inner hhead hlast]
  refine ⟨hjsonwrap, hplainwrap, hself, ?_⟩
  intro loads
  rw [hjsonwrap, hself]

/-- Witness for C4 (amended): a whitespace-surrounded "```json" wrap of the
object text `{"answer": 1}` strips back to exactly that text. -/
theorem fence_strip_amended_witness :
    processModelText
        ((toChars " ") ++ (toChars "```json" ++ (c4inner ++ toChars "```"))
          ++ (toChars "\n"))
      = c4inner :=
  (fence_strip_amended c4inner (toChars " ") (toChars "\n")
    (by decide) (by decide)
    ⟨Char.ofNat 123, toChars "\"answer\": 1\x7d", by decide⟩
    ⟨Char.ofNat 125, by decide⟩
    (by decide) (by decide) (by decide)).1

end BankingChat
